import Mathlib

/-!
Shallow embedding of the rightmo-trest-ui client (React/TypeScript) for
verification of its natural-language specification.

The embedding models:
* the route guard component `ProtectedRoute` and the routing table `routes`;
* the Dashboard page: its state, its fetch of the product list (query
  parameters, success and failure transitions), its filter handlers and its
  pagination rendering;
* the ProductDetail page: its state, single-product fetch, update submission,
  delete flow, and image-URL resolution.

JavaScript-specific semantics that matter here are modelled explicitly:
string truthiness (`null`/`undefined`/`""` are falsy), the `a || b` idiom on
strings, and `String.prototype.replace` with a string pattern, which replaces
only the FIRST occurrence of the pattern.
-/

/-- JS truthiness of a nullable string: `null`/`undefined` and `""` are falsy. -/
def jsTruthy : Option String → Bool
  | none => false
  | some s => !s.isEmpty

/-- The JS idiom `x || d` on a nullable string: the string when truthy, else `d`. -/
def jsOrD (x : Option String) (d : String) : String :=
  match x with
  | none => d
  | some s => if s.isEmpty then d else s

/-- Replace the first occurrence of `pat` (as a character list) by `repl` in `l`. -/
def replaceFirstList (pat repl : List Char) : List Char → List Char
  | [] => if pat = [] then repl else []
  | c :: rest =>
      if pat.isPrefixOf (c :: rest) then repl ++ (c :: rest).drop pat.length
      else c :: replaceFirstList pat repl rest

/-- JS `s.replace(pat, repl)` with a plain-string pattern: replaces only the
first occurrence of `pat` in `s` (identity when `pat` does not occur). -/
def jsReplaceFirst (s pat repl : String) : String :=
  String.mk (replaceFirstList pat.data repl.data s.data)

/-! ## Route guard and routing table

Source: `src/components/ProtectedRoute.tsx` (provided unnamed) and
`src/routes/index.tsx`. -/

/-- A route element of this application, as declared in the routing table. -/
inductive Element
  | loginPage
  | dashboardPage
  | productDetailPage
  | navigateTo (dest : String) (replace : Bool)
  | protectedEl (children : Element)
deriving DecidableEq, Repr

/-- What a mount of a guard-wrapped subtree displays. -/
inductive Mounted
  | loadingPlaceholder
  | redirect (dest : String) (replace : Bool)
  | content (children : Element)
deriving DecidableEq, Repr

/-- Embedding of the `ProtectedRoute` component: consult the auth context's
`isLoading` and `token` and either render a loading placeholder, redirect to
`/login` (replacing history), or render the wrapped children. -/
def ProtectedRoute (isLoading : Bool) (token : Option String)
    (children : Element) : Mounted :=
  if isLoading then .loadingPlaceholder
  else if !jsTruthy token then .redirect "/login" true
  else .content children

/-- One entry of the routing table: a path and its element. -/
structure RouteConfig where
  path : String
  element : Element
deriving DecidableEq, Repr

/-- Embedding of the routing table from `src/routes/index.tsx`. -/
def routes : List RouteConfig :=
  [ ⟨"/login", .loginPage⟩,
    ⟨"/dashboard", .protectedEl .dashboardPage⟩,
    ⟨"/products/:id", .protectedEl .productDetailPage⟩,
    ⟨"/", .navigateTo "/dashboard" true⟩ ]

/-- Mounting a route element under given auth-context state: a guarded element
renders through `ProtectedRoute`; anything else renders as itself. -/
def mountElement (isLoading : Bool) (token : Option String) : Element → Mounted
  | .protectedEl children => ProtectedRoute isLoading token children
  | .navigateTo dest replace => .redirect dest replace
  | e => .content e

/-! ## Dashboard page

Source: `src/pages/Dashboard.tsx` (provided unnamed). -/

namespace Dashboard

/-- The product shape used on the Dashboard page (its local interface). -/
structure Product where
  id : Nat
  name : String
  category : String
  price : Int
  rating : Int
  image : Option String
  description : String
deriving DecidableEq, Repr

/-- The paginated envelope returned by `GET /products`, fields the page reads. -/
structure ProductsResponse where
  data : List Product
  current_page : Nat
  last_page : Nat
  per_page : Nat
  total : Nat
deriving DecidableEq, Repr

/-- The Dashboard component's state hooks. -/
structure DashState where
  products : List Product
  loading : Bool
  error : String
  search : String
  category : String
  sortBy : String
  sortOrder : String
  minPrice : String
  maxPrice : String
  currentPage : Nat
  lastPage : Nat
  total : Nat
deriving DecidableEq, Repr

/-- The initial state of the Dashboard's hooks. -/
def initState : DashState :=
  { products := [], loading := true, error := "", search := "", category := "",
    sortBy := "created_at", sortOrder := "desc", minPrice := "", maxPrice := "",
    currentPage := 1, lastPage := 1, total := 0 }

/-- The query parameters `fetchProducts` assembles: `page` and `per_page`
always; each optional parameter only when its state value is truthy
(a non-empty string). -/
def fetchParams (s : DashState) : List (String × String) :=
  [("page", toString s.currentPage), ("per_page", "12")]
    ++ (if !s.search.isEmpty then [("search", s.search)] else [])
    ++ (if !s.category.isEmpty then [("category", s.category)] else [])
    ++ (if !s.sortBy.isEmpty then [("sort_by", s.sortBy)] else [])
    ++ (if !s.sortOrder.isEmpty then [("sort_order", s.sortOrder)] else [])
    ++ (if !s.minPrice.isEmpty then [("min_price", s.minPrice)] else [])
    ++ (if !s.maxPrice.isEmpty then [("max_price", s.maxPrice)] else [])

/-- State transition of `fetchProducts`, given the request's outcome: set
loading and clear the error, then either adopt the envelope's data and
pagination metadata or record the failure message; in both cases stop the
loading indicator. -/
def fetchProducts (s : DashState) (resp : Except Unit ProductsResponse) :
    DashState :=
  let s1 := { s with loading := true, error := "" }
  match resp with
  | .ok r =>
      { s1 with products := r.data, currentPage := r.current_page,
                lastPage := r.last_page, total := r.total, loading := false }
  | .error _ =>
      { s1 with error := "Failed to fetch products", loading := false }

/-- `handleSearchChange`: update the search text and reset the page to 1. -/
def handleSearchChange (s : DashState) (v : String) : DashState :=
  { s with search := v, currentPage := 1 }

/-- `handleCategoryChange`: update the category filter and reset the page to 1. -/
def handleCategoryChange (s : DashState) (v : String) : DashState :=
  { s with category := v, currentPage := 1 }

/-- `handleSortChange`: update the sort field and reset the page to 1. -/
def handleSortChange (s : DashState) (v : String) : DashState :=
  { s with sortBy := v, currentPage := 1 }

/-- `handleSortOrderChange`: update the sort order and reset the page to 1. -/
def handleSortOrderChange (s : DashState) (v : String) : DashState :=
  { s with sortOrder := v, currentPage := 1 }

/-- `handleMinPriceChange`: update the minimum price bound and reset the page to 1. -/
def handleMinPriceChange (s : DashState) (v : String) : DashState :=
  { s with minPrice := v, currentPage := 1 }

/-- `handleMaxPriceChange`: update the maximum price bound and reset the page to 1. -/
def handleMaxPriceChange (s : DashState) (v : String) : DashState :=
  { s with maxPrice := v, currentPage := 1 }

/-- `clearFilters`: restore every filter to its default and reset the page to 1. -/
def clearFilters (s : DashState) : DashState :=
  { s with search := "", category := "", sortBy := "created_at",
           sortOrder := "desc", minPrice := "", maxPrice := "", currentPage := 1 }

/-- The Dashboard's `getImageUrl`: a stored path resolves against the
hard-coded host, a missing one yields the placeholder. -/
def getImageUrl (image : Option String) : String :=
  if !jsTruthy image then "https://via.placeholder.com/300x200?text=No+Image"
  else "http://localhost:8000/storage/" ++ image.getD ""

/-- The body of the Dashboard render below the filters: the loading view, or
the product grid together with the optional pagination controls. The
pagination pair records (Previous disabled, Next disabled). -/
inductive DashView
  | loadingView
  | contentView (shownCount : Nat) (total : Nat) (cardIds : List Nat)
      (noProductsMsg : Bool) (pagination : Option (Bool × Bool))
deriving DecidableEq, Repr

/-- Embedding of the Dashboard's conditional render: when loading, only the
loading view; otherwise the grid, the "No products found" message exactly for
an empty list, and the pagination block exactly when `lastPage > 1`, its
Previous button disabled iff `currentPage === 1` and its Next button disabled
iff `currentPage === lastPage`. -/
def dashboardRender (s : DashState) : DashView :=
  if s.loading then .loadingView
  else
    .contentView s.products.length s.total (s.products.map (fun p => p.id))
      (s.products.length == 0 && !s.loading)
      (if 1 < s.lastPage then some (s.currentPage == 1, s.currentPage == s.lastPage)
       else none)

/-- Projection: the pagination block of a rendered Dashboard body, when the
body is the content view (`none` while loading). -/
def DashView.paginationCtl : DashView → Option (Option (Bool × Bool))
  | .loadingView => none
  | .contentView _ _ _ _ pg => some pg

end Dashboard

/-! ## Product Detail page

Source: `src/pages/ProductDetail.tsx`. -/

namespace ProductDetail

/-- The product shape used on the detail page (its local interface). -/
structure Product where
  id : Nat
  name : String
  category : String
  price : Int
  rating : Int
  image : Option String
  image_url : Option String
  description : String
  created_at : String
  updated_at : String
deriving DecidableEq, Repr

/-- The editable draft form (`formData` state hook). -/
structure FormFields where
  name : String
  category : String
  price : String
  rating : String
  description : String
deriving DecidableEq, Repr

/-- The ProductDetail component's state hooks. A chosen image file is modelled
by its name; `imagePreview` holds the data URL produced by the file reader. -/
structure PDState where
  product : Option Product
  loading : Bool
  error : String
  isEditing : Bool
  formData : FormFields
  imageFile : Option String
  imagePreview : Option String
deriving DecidableEq, Repr

/-- The draft form populated from a fetched product, as `fetchProduct` does:
each text field via the `|| fallback` idiom, price and rating coerced to
strings with fallback "0". -/
def formOf (p : Product) : FormFields :=
  { name := jsOrD (some p.name) "",
    category := jsOrD (some p.category) "",
    price := jsOrD (some (toString p.price)) "0",
    rating := jsOrD (some (toString p.rating)) "0",
    description := jsOrD (some p.description) "" }

/-- A successful product response: the Boolean records whether the body was
wrapped as a data envelope; unwrapping yields the product either way
(the source's data-or-body idiom). -/
def unwrapProduct (resp : Bool × Product) : Product := resp.2

/-- State transition of `fetchProduct`, given the request's outcome: set
loading, clear the error, then either adopt the (unwrapped) product and
populate the draft form, or record the failure message; in both cases stop
the loading indicator. -/
def fetchProduct (s : PDState) (resp : Except Unit (Bool × Product)) : PDState :=
  let s1 := { s with loading := true, error := "" }
  match resp with
  | .ok r =>
      { s1 with product := some (unwrapProduct r), formData := formOf (unwrapProduct r),
                loading := false }
  | .error _ =>
      { s1 with error := "Failed to fetch product", loading := false }

/-- The multipart payload `handleUpdate` assembles: all five text fields, the
image file only when one was chosen, and the `_method=PUT` override marker. -/
def updatePayload (s : PDState) : List (String × String) :=
  [("name", s.formData.name), ("category", s.formData.category),
   ("price", s.formData.price), ("rating", s.formData.rating),
   ("description", s.formData.description)]
    ++ (match s.imageFile with
        | some f => [("image", f)]
        | none => [])
    ++ [("_method", "PUT")]

/-- State transition of `handleUpdate` after submission, given the update
request's outcome and, on success, the outcome of the follow-up refetch: on
success adopt the (unwrapped) returned product, leave edit mode, clear the
chosen file and its preview, and then run `fetchProduct` on the refetch
outcome; on failure record the backend message when truthy, else the generic
message. -/
def handleUpdate (s : PDState) (resp : Except (Option String) (Bool × Product))
    (refetch : Except Unit (Bool × Product)) : PDState :=
  let s1 := { s with error := "" }
  match resp with
  | .ok r =>
      fetchProduct
        { s1 with product := some (unwrapProduct r), isEditing := false,
                  imageFile := none, imagePreview := none }
        refetch
  | .error msg => { s1 with error := jsOrD msg "Failed to update product" }

/-- The observable outcome of one invocation of `handleDelete`: the resulting
state, how many DELETE requests were issued, and where the page navigated. -/
structure DeleteOutcome where
  state : PDState
  deleteRequests : Nat
  navigatedTo : Option String
deriving DecidableEq, Repr

/-- Embedding of `handleDelete`: an unconfirmed prompt returns immediately;
a confirmed one issues one DELETE request and either navigates to
`/dashboard` or records the failure message. -/
def handleDelete (s : PDState) (confirmed : Bool)
    (resp : Except Unit Unit) : DeleteOutcome :=
  if !confirmed then ⟨s, 0, none⟩
  else
    match resp with
    | .ok _ => ⟨s, 1, some "/dashboard"⟩
    | .error _ => ⟨{ s with error := "Failed to delete product" }, 1, none⟩

/-- The detail page's `getImageUrl`: prefer a truthy absolute `image_url`;
with no stored path, the placeholder; otherwise resolve the stored path
against `VITE_API_BASE_URL` with its FIRST occurrence of the substring
`/api` removed (the JS `replace` with a string pattern), falling back to
`http://localhost:8000` when the variable is unset or the stripped result is
empty. -/
def getImageUrl (envApiBaseUrl : Option String)
    (imageUrl imagePath : Option String) : String :=
  if jsTruthy imageUrl then imageUrl.getD ""
  else if !jsTruthy imagePath then
    "https://via.placeholder.com/600x400?text=No+Image"
  else
    let stripped := envApiBaseUrl.map (fun b => jsReplaceFirst b "/api" "")
    let baseUrl := jsOrD stripped "http://localhost:8000"
    baseUrl ++ "/storage/" ++ imagePath.getD ""

/-- Modelled from the spec: the image resolution rule as the specification
words it, with the storage base obtained by stripping a TRAILING `/api`
suffix from the configured API base URL (same fallback for an unset or
emptied value). Compared against `getImageUrl`, which embeds the source. -/
def getImageUrlSpecModel (envApiBaseUrl : Option String)
    (imageUrl imagePath : Option String) : String :=
  if jsTruthy imageUrl then imageUrl.getD ""
  else if !jsTruthy imagePath then
    "https://via.placeholder.com/600x400?text=No+Image"
  else
    let stripped := envApiBaseUrl.map (fun b =>
      if ("/api".data).isSuffixOf b.data
      then String.mk (b.data.take (b.data.length - 4)) else b)
    let baseUrl := jsOrD stripped "http://localhost:8000"
    baseUrl ++ "/storage/" ++ imagePath.getD ""

/-- In edit mode, whether the preview block renders: the source's condition
`imagePreview || product.image`. -/
def editPreviewShown (imagePreview : Option String) (p : Product) : Bool :=
  jsTruthy imagePreview || jsTruthy p.image

/-- In edit mode, the preview image source when the block renders:
`imagePreview || getImageUrl(product.image_url, product.image)`. -/
def editPreviewSrc (envApiBaseUrl : Option String) (imagePreview : Option String)
    (p : Product) : String :=
  jsOrD imagePreview (getImageUrl envApiBaseUrl p.image_url p.image)

/-- In view mode, the large image source:
`getImageUrl(product.image_url, product.image)`. -/
def viewImageSrc (envApiBaseUrl : Option String) (p : Product) : String :=
  getImageUrl envApiBaseUrl p.image_url p.image

end ProductDetail

/-! ## Sample values used by witnesses -/

/-- A sample detail-page product with a stored image path and no absolute URL. -/
def sampleProduct : ProductDetail.Product :=
  { id := 1, name := "Lamp", category := "Electronics", price := 30, rating := 4,
    image := some "img.png", image_url := none, description := "A lamp",
    created_at := "2024-01-01", updated_at := "2024-01-02" }

/-- A sample detail-page product whose only image source is `image_url`. -/
def sampleUrlProduct : ProductDetail.Product :=
  { id := 2, name := "Chair", category := "Home & Garden", price := 80, rating := 5,
    image := none, image_url := some "https://x/y.png", description := "A chair",
    created_at := "2024-02-01", updated_at := "2024-02-02" }

/-- A sample detail-page state sitting in edit mode. -/
def samplePD : ProductDetail.PDState :=
  { product := some sampleProduct, loading := false, error := "",
    isEditing := true,
    formData := { name := "Lamp", category := "Electronics", price := "30",
                  rating := "4", description := "A lamp" },
    imageFile := none, imagePreview := none }

/-- A sample loaded Dashboard state with several pages. -/
def sampleDash : Dashboard.DashState :=
  { Dashboard.initState with loading := false, lastPage := 3 }

/-! ## Theorems for the claims -/

/-- Claim C1: for every mount of a guarded route (`/dashboard` or `/products/:id`),
the routing table wraps the page in the route guard; while the auth context is
loading the guard renders only a loading placeholder; once loading completes,
an absent (falsy) token yields a history-replacing redirect to `/login`, and a
present token renders the wrapped children unchanged. -/
theorem protectedRoute_guards_routes :
    (∀ r ∈ routes,
       (r.path = "/dashboard" → r.element = .protectedEl .dashboardPage) ∧
       (r.path = "/products/:id" → r.element = .protectedEl .productDetailPage)) ∧
    (∀ (token : Option String) (children : Element),
       mountElement true token (.protectedEl children) = .loadingPlaceholder) ∧
    (∀ (token : Option String) (children : Element), jsTruthy token = false →
       mountElement false token (.protectedEl children) = .redirect "/login" true) ∧
    (∀ (token : Option String) (children : Element), jsTruthy token = true →
       mountElement false token (.protectedEl children) = .content children) := by
  refine ⟨by decide, fun token children => rfl, ?_, ?_⟩
  · intro token children h
    simp [mountElement, ProtectedRoute, h]
  · intro token children h
    simp [mountElement, ProtectedRoute, h]

/-- Witness for C1 at concrete inputs: with no token the guarded dashboard
route redirects to `/login` replacing history, and with a token it renders
the dashboard. -/
theorem protectedRoute_guards_routes_witness :
    mountElement false none (.protectedEl .dashboardPage) = .redirect "/login" true ∧
    mountElement false (some "tok") (.protectedEl .dashboardPage)
      = .content .dashboardPage :=
  ⟨protectedRoute_guards_routes.2.2.1 none .dashboardPage (by decide),
   protectedRoute_guards_routes.2.2.2 (some "tok") .dashboardPage (by decide)⟩

/-- Claim C3: an unconfirmed delete prompt issues no DELETE request and leaves the
page state unchanged; a confirmed one issues exactly one DELETE request and,
on success, navigates to `/dashboard`; on failure it records
"Failed to delete product" and performs no navigation. -/
theorem handleDelete_spec (s : ProductDetail.PDState) (resp : Except Unit Unit) :
    ProductDetail.handleDelete s false resp = ⟨s, 0, none⟩ ∧
    ProductDetail.handleDelete s true (.ok ()) = ⟨s, 1, some "/dashboard"⟩ ∧
    ProductDetail.handleDelete s true (.error ())
      = ⟨{ s with error := "Failed to delete product" }, 1, none⟩ :=
  ⟨rfl, rfl, rfl⟩

/-- Claim C4: a successful edit submission adopts the returned product (unwrapped
from its data envelope when wrapped), exits edit mode, clears the chosen
image file and its preview, and then re-fetches the product; afterwards the
page is still out of edit mode with no chosen file or preview. -/
theorem handleUpdate_success (s : ProductDetail.PDState) (w : Bool)
    (p : ProductDetail.Product) (refetch : Except Unit (Bool × ProductDetail.Product)) :
    ProductDetail.handleUpdate s (.ok (w, p)) refetch =
      ProductDetail.fetchProduct
        { s with error := "", product := some p, isEditing := false,
                 imageFile := none, imagePreview := none } refetch ∧
    (ProductDetail.handleUpdate s (.ok (w, p)) refetch).isEditing = false ∧
    (ProductDetail.handleUpdate s (.ok (w, p)) refetch).imageFile = none ∧
    (ProductDetail.handleUpdate s (.ok (w, p)) refetch).imagePreview = none := by
  refine ⟨rfl, ?_, ?_, ?_⟩ <;> cases refetch <;> rfl

/-- Claim C9: a failed products request records exactly the message
"Failed to fetch products", stops the loading indicator, and leaves the
products list, current page, last page and total count unchanged. -/
theorem fetchProducts_failure (s : Dashboard.DashState) :
    Dashboard.fetchProducts s (.error ()) =
      { s with error := "Failed to fetch products", loading := false } ∧
    (Dashboard.fetchProducts s (.error ())).products = s.products ∧
    (Dashboard.fetchProducts s (.error ())).currentPage = s.currentPage ∧
    (Dashboard.fetchProducts s (.error ())).lastPage = s.lastPage ∧
    (Dashboard.fetchProducts s (.error ())).total = s.total :=
  ⟨rfl, rfl, rfl, rfl, rfl⟩

/-- Claim C6: every one of the six filter/sort handlers resets the current page to
1, whatever the previous page and whatever value is entered. -/
theorem filters_reset_page (s : Dashboard.DashState) (v : String) :
    (Dashboard.handleSearchChange s v).currentPage = 1 ∧
    (Dashboard.handleCategoryChange s v).currentPage = 1 ∧
    (Dashboard.handleSortChange s v).currentPage = 1 ∧
    (Dashboard.handleSortOrderChange s v).currentPage = 1 ∧
    (Dashboard.handleMinPriceChange s v).currentPage = 1 ∧
    (Dashboard.handleMaxPriceChange s v).currentPage = 1 :=
  ⟨rfl, rfl, rfl, rfl, rfl, rfl⟩

/-- Claim C5: a failed edit submission shows the backend-supplied message when
one is present (a truthy message string), otherwise the generic
"Failed to update product"; the page stays in edit mode and the current
product, draft form values, and chosen image file and preview are unchanged. -/
theorem handleUpdate_failure (s : ProductDetail.PDState) (msg : Option String)
    (refetch : Except Unit (Bool × ProductDetail.Product)) :
    (∀ m, msg = some m → m ≠ "" →
       (ProductDetail.handleUpdate s (.error msg) refetch).error = m) ∧
    (msg = none →
       (ProductDetail.handleUpdate s (.error msg) refetch).error
         = "Failed to update product") ∧
    (msg = some "" →
       (ProductDetail.handleUpdate s (.error msg) refetch).error
         = "Failed to update product") ∧
    (ProductDetail.handleUpdate s (.error msg) refetch).isEditing = s.isEditing ∧
    (ProductDetail.handleUpdate s (.error msg) refetch).product = s.product ∧
    (ProductDetail.handleUpdate s (.error msg) refetch).formData = s.formData ∧
    (ProductDetail.handleUpdate s (.error msg) refetch).imageFile = s.imageFile ∧
    (ProductDetail.handleUpdate s (.error msg) refetch).imagePreview = s.imagePreview := by
  refine ⟨?_, ?_, ?_, rfl, rfl, rfl, rfl, rfl⟩
  · rintro m rfl hm
    simp [ProductDetail.handleUpdate, jsOrD, String.isEmpty_iff, hm]
  · rintro rfl
    rfl
  · rintro rfl
    rfl

/-- Witness for C5 at concrete inputs: with a backend message "boom" the page
shows "boom", and with no backend message it shows the generic message; edit
mode persists. -/
theorem handleUpdate_failure_witness :
    (ProductDetail.handleUpdate samplePD (.error (some "boom")) (.error ())).error
      = "boom" ∧
    (ProductDetail.handleUpdate samplePD (.error none) (.error ())).error
      = "Failed to update product" ∧
    (ProductDetail.handleUpdate samplePD (.error (some "boom")) (.error ())).isEditing
      = true :=
  ⟨(handleUpdate_failure samplePD (some "boom") (.error ())).1 "boom" rfl (by decide),
   (handleUpdate_failure samplePD none (.error ())).2.1 rfl,
   ((handleUpdate_failure samplePD (some "boom") (.error ())).2.2.2.1).trans rfl⟩

/-- Claim C7: in every loaded Dashboard state the pagination block renders
exactly when the last page exceeds 1; when it renders, the Previous control
is disabled exactly when the current page is 1 and the Next control is
disabled exactly when the current page equals the last page. -/
theorem pagination_render (s : Dashboard.DashState) (h : s.loading = false) :
    ((Dashboard.dashboardRender s).paginationCtl = some none ↔ s.lastPage ≤ 1) ∧
    (1 < s.lastPage →
       (Dashboard.dashboardRender s).paginationCtl
         = some (some (s.currentPage == 1, s.currentPage == s.lastPage))) ∧
    (∀ pd nd, (Dashboard.dashboardRender s).paginationCtl = some (some (pd, nd)) →
       ((pd = true ↔ s.currentPage = 1) ∧ (nd = true ↔ s.currentPage = s.lastPage))) := by
  have hrender : (Dashboard.dashboardRender s).paginationCtl =
      some (if 1 < s.lastPage
            then some (s.currentPage == 1, s.currentPage == s.lastPage)
            else none) := by
    simp [Dashboard.dashboardRender, h, Dashboard.DashView.paginationCtl]
  rw [hrender]
  by_cases hp : 1 < s.lastPage
  · refine ⟨?_, fun _ => by rw [if_pos hp], ?_⟩
    · rw [if_pos hp]
      simp
      omega
    · intro pd nd hEq
      rw [if_pos hp] at hEq
      simp only [Option.some.injEq, Prod.mk.injEq] at hEq
      obtain ⟨h1, h2⟩ := hEq
      subst h1
      subst h2
      constructor <;> simp [beq_iff_eq]
  · refine ⟨?_, fun hcontra => absurd hcontra hp, ?_⟩
    · rw [if_neg hp]
      simp
      omega
    · intro pd nd hEq
      rw [if_neg hp] at hEq
      simp at hEq

/-- Witness for C7 at a concrete loaded state on page 1 of 3: the pagination
block renders with Previous disabled and Next enabled. -/
theorem pagination_render_witness :
    (Dashboard.dashboardRender sampleDash).paginationCtl = some (some (true, false)) := by
  have h := (pagination_render sampleDash rfl).2.1 (by decide)
  rw [h]
  rfl

set_option maxHeartbeats 1000000 in
/-- Claim C8: the products request always carries `page` (the current page)
and `per_page` (12); each of `search`, `category`, `sort_by`, `sort_order`,
`min_price`, `max_price` is carried exactly when its state value is
non-empty, with that exact value, and is omitted (never sent as an empty
string) otherwise. -/
theorem fetchParams_spec (s : Dashboard.DashState) :
    (Dashboard.fetchParams s).lookup "page" = some (toString s.currentPage) ∧
    (Dashboard.fetchParams s).lookup "per_page" = some "12" ∧
    (Dashboard.fetchParams s).lookup "search"
      = (if s.search.isEmpty then none else some s.search) ∧
    (Dashboard.fetchParams s).lookup "category"
      = (if s.category.isEmpty then none else some s.category) ∧
    (Dashboard.fetchParams s).lookup "sort_by"
      = (if s.sortBy.isEmpty then none else some s.sortBy) ∧
    (Dashboard.fetchParams s).lookup "sort_order"
      = (if s.sortOrder.isEmpty then none else some s.sortOrder) ∧
    (Dashboard.fetchParams s).lookup "min_price"
      = (if s.minPrice.isEmpty then none else some s.minPrice) ∧
    (Dashboard.fetchParams s).lookup "max_price"
      = (if s.maxPrice.isEmpty then none else some s.maxPrice) := by
  cases h1 : s.search.isEmpty <;> cases h2 : s.category.isEmpty <;>
    cases h3 : s.sortBy.isEmpty <;> cases h4 : s.sortOrder.isEmpty <;>
    cases h5 : s.minPrice.isEmpty <;> cases h6 : s.maxPrice.isEmpty <;>
    simp [Dashboard.fetchParams, List.lookup, h1, h2, h3, h4, h5, h6]

/-- Claim C10: in edit mode with no replacement file chosen (hence no local
preview), the preview block renders exactly when the stored image path is
truthy (non-null, non-empty); for a product whose only image source is the
absolute `image_url`, no preview renders in edit mode even though the view
mode displays exactly that URL. -/
theorem editPreview_no_file (env : Option String) (p : ProductDetail.Product) :
    ProductDetail.editPreviewShown none p = jsTruthy p.image ∧
    (p.image = none → ProductDetail.editPreviewShown none p = false) ∧
    (p.image = none → jsTruthy p.image_url = true →
       (ProductDetail.editPreviewShown none p = false ∧
        ProductDetail.viewImageSrc env p = p.image_url.getD "")) := by
  refine ⟨?_, ?_, ?_⟩
  · simp [ProductDetail.editPreviewShown, jsTruthy]
  · intro h
    simp [ProductDetail.editPreviewShown, jsTruthy, h]
  · intro h hurl
    refine ⟨by simp [ProductDetail.editPreviewShown, jsTruthy, h], ?_⟩
    simp [ProductDetail.viewImageSrc, ProductDetail.getImageUrl, hurl]

/-- Witness for C10 at a concrete product whose only image source is
`image_url`: edit mode shows no preview while view mode shows that URL. -/
theorem editPreview_no_file_witness :
    ProductDetail.editPreviewShown none sampleUrlProduct = false ∧
    ProductDetail.viewImageSrc none sampleUrlProduct = "https://x/y.png" := by
  have h := (editPreview_no_file none sampleUrlProduct).2.2 rfl (by decide)
  exact ⟨h.1, h.2⟩

/-- Counterexample for C2 as stated: the source resolves a stored path with
`VITE_API_BASE_URL.replace with pattern /api`, which removes the FIRST
occurrence of `/api`, not a trailing suffix. With the base URL configured as
`http://host/api/v1` (which has no trailing `/api`), the code removes the
interior `/api`, while a trailing-suffix strip would leave the base URL
intact; the two resulting image URLs differ. -/
theorem getImageUrl_trailing_strip_refuted :
    ProductDetail.getImageUrl (some "http://host/api/v1") none (some "abc.png")
      = "http://host/v1/storage/abc.png" ∧
    ProductDetail.getImageUrlSpecModel (some "http://host/api/v1") none (some "abc.png")
      = "http://host/api/v1/storage/abc.png" ∧
    ProductDetail.getImageUrl (some "http://host/api/v1") none (some "abc.png")
      ≠ ProductDetail.getImageUrlSpecModel (some "http://host/api/v1") none
          (some "abc.png") := by
  refine ⟨?_, ?_, ?_⟩ <;> decide

/-- Claim C2 (amended): the detail view's image URL is the product's
`image_url` field when truthy; otherwise, when a stored image path is truthy,
the configured API base URL with the FIRST occurrence of the substring `/api`
removed (falling back to `http://localhost:8000` when the variable is unset
or the stripped result is empty), concatenated with `/storage/` and the path;
otherwise a fixed placeholder URL. -/
theorem getImageUrl_amended (env imageUrl imagePath : Option String) :
    (jsTruthy imageUrl = true →
       ProductDetail.getImageUrl env imageUrl imagePath = imageUrl.getD "") ∧
    (jsTruthy imageUrl = false → jsTruthy imagePath = false →
       ProductDetail.getImageUrl env imageUrl imagePath
         = "https://via.placeholder.com/600x400?text=No+Image") ∧
    (jsTruthy imageUrl = false → jsTruthy imagePath = true →
       ProductDetail.getImageUrl env imageUrl imagePath
         = jsOrD (env.map (fun b => jsReplaceFirst b "/api" "")) "http://localhost:8000"
             ++ "/storage/" ++ imagePath.getD "") :=
  ⟨fun h1 => by simp [ProductDetail.getImageUrl, h1],
   fun h1 h2 => by simp [ProductDetail.getImageUrl, h1, h2],
   fun h1 h2 => by simp [ProductDetail.getImageUrl, h1, h2]⟩

/-- Witness for the amended C2 at the default configuration, where the first
occurrence of `/api` is the trailing one: a stored path `abc.png` resolves to
the storage URL, as the specification's example requires. -/
theorem getImageUrl_amended_witness :
    ProductDetail.getImageUrl (some "http://localhost:8000/api") none (some "abc.png")
      = "http://localhost:8000/storage/abc.png" := by
  have h := (getImageUrl_amended (some "http://localhost:8000/api") none
    (some "abc.png")).2.2 rfl (by decide)
  rw [h]
  decide
